import Mathlib

/-!
Shallow embedding of the `hisazumi/trajector` repository (detection →
tracking → visualization pipeline over video sources).

Conventions of the embedding:
* numpy `float32` / Python `float` arithmetic is modelled over `ℚ`;
* images are index functions over `Nat` coordinates together with explicit
  height/width (and, for colour images, three channels);
* OpenCV primitives (`GaussianBlur`, `resize`, `cvtColor`, `applyColorMap`,
  drawing primitives, `addWeighted`) are external library calls out of the
  repository's scope, so they are bundled as an abstract record `CvLib` of
  functions over which theorems quantify; the repository's own control flow
  and arithmetic (decay, normalisation, stamping, cache management,
  pipeline sequencing) are translated exactly from the source;
* the filled-circle stamp `cv2.circle(img, c, r, v, -1)` is modelled as
  setting every pixel within Euclidean distance `r` of `c` to `v`
  (overwriting, as in the source, not accumulating);
* numpy array addition raises on incompatible shapes, so pointwise
  combination is `Except`-valued; python exceptions become `Except.error`.
-/

namespace Trajector

/-- A single-channel floating-point field (numpy 2-D `float32` array):
height, width and the per-pixel value. Only indices `y < h`, `x < w` are
meaningful. -/
structure GrayImg where
  h : Nat
  w : Nat
  data : Nat → Nat → ℚ

/-- A three-channel image (numpy `(h, w, 3)` array). -/
structure ColorImg where
  h : Nat
  w : Nat
  data : Nat → Nat → Fin 3 → ℚ

/-- The visualizer's `_heatmap_cache` holds either a raw single-channel
intensity field or a colorized 3-channel render, depending on which method
last wrote it. -/
inductive CacheImg where
  | gray : GrayImg → CacheImg
  | color : ColorImg → CacheImg

/-- Spatial (height, width) shape of a cached image, i.e. `.shape[:2]`. -/
def CacheImg.spatial : CacheImg → Nat × Nat
  | .gray g => (g.h, g.w)
  | .color c => (c.h, c.w)

/-- Abstract record of the OpenCV primitives the visualizer calls.  These
live in the external `cv2` library, not in this repository, so they are
opaque parameters; theorems state any shape facts they need as hypotheses. -/
structure CvLib where
  /-- `cv2.GaussianBlur(img, (21, 21), 0)` on a single-channel field. -/
  blur : GrayImg → GrayImg
  /-- `cv2.resize` of a gray field to target (width, height). -/
  resizeG : GrayImg → Nat → Nat → GrayImg
  /-- `cv2.resize` of a colour image to target (width, height). -/
  resizeC : ColorImg → Nat → Nat → ColorImg
  /-- `cv2.cvtColor(img, cv2.COLOR_BGR2GRAY)`. -/
  bgr2gray : ColorImg → GrayImg
  /-- `cv2.applyColorMap(v, cv2.COLORMAP_JET)` per-pixel on a uint8 value. -/
  cmap : Nat → Fin 3 → ℚ
  /-- `cv2.cvtColor` HSV→BGR of a hue value (used by `_generate_colors`). -/
  hsv2bgr : Nat → Fin 3 → ℚ
  /-- `cv2.rectangle(img, p1, p2, color, 2)`. -/
  rect : ColorImg → (Int × Int) → (Int × Int) → (Fin 3 → ℚ) → ColorImg
  /-- `cv2.putText(img, text, org, font, 0.5, color, 2)`. -/
  putText : ColorImg → String → (Int × Int) → (Fin 3 → ℚ) → ColorImg
  /-- `cv2.line(img, p1, p2, color, thickness)`. -/
  lineC : ColorImg → (Int × Int) → (Int × Int) → (Fin 3 → ℚ) → Nat → ColorImg
  /-- `cv2.circle(img, center, radius, color, -1)` on a colour image. -/
  circleC : ColorImg → (Int × Int) → Nat → (Fin 3 → ℚ) → ColorImg
  /-- `cv2.addWeighted(a, alpha, b, beta, 0)`. -/
  addWeighted : ColorImg → ℚ → ColorImg → ℚ → ColorImg

/-- The all-zero field of a given shape (`np.zeros((h, w), np.float32)`). -/
def zerosG (h w : Nat) : GrayImg := ⟨h, w, fun _ _ => 0⟩

/-- Filled-circle stamp: `cv2.circle(field, (cx, cy), r, v, -1)` sets every
pixel within distance `r` of the centre to `v` (pixels outside the array are
clipped implicitly because only in-bounds indices are ever read). -/
def stampCircle (g : GrayImg) (cx cy : Int) (r : Nat) (v : ℚ) : GrayImg :=
  ⟨g.h, g.w, fun y x =>
    if ((x : Int) - cx) ^ 2 + ((y : Int) - cy) ^ 2 ≤ (r : Int) ^ 2 then v
    else g.data y x⟩

/-- A trajectory store: `Dict[int, List[Tuple[int, int]]]` as an ordered
association list (Python dicts preserve insertion order). -/
abbrev TrajStore := List (Nat × List (Int × Int))

/-- numpy elementwise scalar multiplication `field * k`. -/
def scaleG (g : GrayImg) (k : ℚ) : GrayImg := ⟨g.h, g.w, fun y x => g.data y x * k⟩

/-- numpy elementwise addition `a + b`; raises (broadcast error) when the
shapes differ. -/
def addG (a b : GrayImg) : Except String GrayImg :=
  if a.h = b.h ∧ a.w = b.w then
    .ok ⟨a.h, a.w, fun y x => a.data y x + b.data y x⟩
  else .error "operands could not be broadcast together"

/-- All in-domain values of a field, row-major. -/
def GrayImg.vals (g : GrayImg) : List ℚ :=
  (List.range g.h).flatMap fun y => (List.range g.w).map fun x => g.data y x

/-- `field.max()` (numpy). Faithful for non-empty fields: the fold is
seeded with the `(0,0)` entry, which is itself an element of `vals` when
`h, w > 0`. -/
def GrayImg.maxVal (g : GrayImg) : ℚ := g.vals.foldl max (g.data 0 0)

/-- `field.min()` (numpy), same convention as `maxVal`. -/
def GrayImg.minVal (g : GrayImg) : ℚ := g.vals.foldl min (g.data 0 0)

/-- Python `int()` / numpy `.astype(int)` truncation toward zero of a
rational. -/
def truncInt (q : ℚ) : Int := Int.tdiv q.num q.den

/-- `(field * 255).astype(np.uint8)`: scale, truncate toward zero, wrap
modulo 256 (numpy uint8 conversion wraps). -/
def toU8 (q : ℚ) : Nat := (truncInt (q * 255)).toNat % 256

/-- `cv2.applyColorMap((field*255).astype(uint8), COLORMAP_JET)` as a
colour image, with the colour map itself abstract. -/
def colorize (lib : CvLib) (g : GrayImg) : ColorImg :=
  ⟨g.h, g.w, fun y x => lib.cmap (toU8 (g.data y x))⟩

/-! ### `TrajectoryVisualizer.create_heatmap` (visualizer.py lines 110-126)

Static heatmap: stamp a disk of radius 20 and value 1 at every historical
point, blur, min-max normalise with the `1e-8` epsilon, scale to uint8 and
colorize. -/

/-- The stamping loop of `create_heatmap`: for every trajectory and every
point, draw a filled circle of radius 20, value 1. -/
def stampStatic (h w : Nat) (trajs : TrajStore) : GrayImg :=
  trajs.foldl (fun acc entry =>
    entry.2.foldl (fun acc2 p => stampCircle acc2 p.1 p.2 20 1) acc)
    (zerosG h w)

/-- The epsilon used in `create_heatmap`'s min-max normalisation (`1e-8`). -/
def heatmapEps : ℚ := 1 / 100000000

/-- Min-max normalisation `(f - f.min()) / (f.max() - f.min() + 1e-8)`. -/
def normMinMax (g : GrayImg) : GrayImg :=
  ⟨g.h, g.w, fun y x =>
    (g.data y x - g.minVal) / (g.maxVal - g.minVal + heatmapEps)⟩

/-- `TrajectoryVisualizer.create_heatmap`. -/
def create_heatmap (lib : CvLib) (frameShape : Nat × Nat) (trajs : TrajStore) :
    ColorImg :=
  colorize lib (normMinMax (lib.blur (stampStatic frameShape.1 frameShape.2 trajs)))

/-! ### `TrajectoryVisualizer` mutable state -/

/-- The visualizer's constructor parameters plus its two mutable fields
(`_heatmap_cache`, `_frame_count`). -/
structure VisState where
  trajectoryLength : Nat
  trajectoryThickness : Nat
  showBbox : Bool
  showId : Bool
  showTrajectory : Bool
  showHeatmap : Bool
  heatmapAlpha : ℚ
  heatmapUpdateInterval : Nat
  heatmapCache : Option CacheImg
  frameCount : Nat

/-! ### `TrajectoryVisualizer.create_realtime_heatmap` (lines 143-187) -/

/-- The recency-weighted stamping loop: for each track with a non-empty
trajectory, each in-bounds point `(x, y)` at position `i` (0-based) in a
trajectory of length `n` stamps a disk of radius 15 and value `(i+1)/n`. -/
def stampWeighted (h w : Nat) (trajs : TrajStore) : GrayImg :=
  trajs.foldl (fun acc entry =>
    if entry.2.length > 0 then
      (entry.2.enum).foldl (fun acc2 pi =>
        if 0 ≤ pi.2.1 ∧ pi.2.1 < (w : Int) ∧ 0 ≤ pi.2.2 ∧ pi.2.2 < (h : Int) then
          stampCircle acc2 pi.2.1 pi.2.2 15 ((pi.1 + 1 : ℚ) / entry.2.length)
        else acc2) acc
    else acc)
    (zerosG h w)

/-- The cache-reconciliation step of `create_realtime_heatmap` (lines
162-169): only when the cache's spatial shape differs from the current
field is it resized, and only then, if it is 3-channel, converted to
grayscale and rescaled by 1/255. -/
def reconcileCache (lib : CvLib) (cache : CacheImg) (h w : Nat) : CacheImg :=
  if cache.spatial ≠ (h, w) then
    match cache with
    | .gray g => .gray (lib.resizeG g w h)
    | .color c => .gray (scaleG (lib.bgr2gray (lib.resizeC c w h)) (1 / 255))
  else cache

/-- The running-maximum normalisation of `create_realtime_heatmap` (lines
177-178): divide by the maximum only when it is positive. -/
def normMax (g : GrayImg) : GrayImg :=
  if g.maxVal > 0 then ⟨g.h, g.w, fun y x => g.data y x / g.maxVal⟩ else g

/-- `TrajectoryVisualizer.create_realtime_heatmap`.  Returns the updated
visualizer state (the cache is overwritten with the raw normalised field)
and the colorized render; numpy shape errors surface as `Except.error`. -/
def create_realtime_heatmap (lib : CvLib) (st : VisState)
    (frameShape : Nat × Nat) (trajs : TrajStore) (decay : ℚ) :
    Except String (VisState × ColorImg) := do
  let current := stampWeighted frameShape.1 frameShape.2 trajs
  let combined ← match st.heatmapCache with
    | none => pure current
    | some cache =>
      match reconcileCache lib cache current.h current.w with
      | .gray g => addG (scaleG g decay) current
      | .color _ => .error "operands could not be broadcast together"
  let normalized := normMax (lib.blur combined)
  pure ({ st with heatmapCache := some (.gray normalized) },
        colorize lib normalized)

/-! ### `ObjectTracker` (tracker.py)

The ByteTrack association algorithm lives in the external `supervision`
library; it is modelled as an opaque state-threading function.  The
repository's own code around it — the empty-detections shortcut, the centre
computation, the `defaultdict(list)` trajectory store — is translated
exactly. -/

/-- One detection dict produced by the detector. -/
structure Detection where
  x1 : ℚ
  y1 : ℚ
  x2 : ℚ
  y2 : ℚ
  confidence : ℚ
  classId : Nat
  className : String

/-- One row of the `sv.Detections` returned by
`byte_tracker.update_with_detections`: tracker id (possibly `None`), box,
optional class id and confidence. -/
structure SvTrack where
  trackerId : Option Nat
  x1 : ℚ
  y1 : ℚ
  x2 : ℚ
  y2 : ℚ
  classId : Option Nat
  confidence : Option ℚ

/-- One element of the list returned by `ObjectTracker.update`. -/
structure TrackedObject where
  id : Nat
  bbox : ℚ × ℚ × ℚ × ℚ
  center : Int × Int
  classId : Nat
  confidence : ℚ
  trajectory : List (Int × Int)

/-- `ObjectTracker`, parameterised by the opaque ByteTrack state type `σ`.
`byteUpdate` models `sv.ByteTrack.update_with_detections` (external
library); `tracks` is the `defaultdict(list)` trajectory store. -/
structure Tracker (σ : Type) where
  byteUpdate : σ → List Detection → σ × List SvTrack
  byteState : σ
  tracks : TrajStore

/-- `self.tracks[track_id].append(point)` on the `defaultdict(list)`:
append to the existing entry, or create the key (at the end, preserving
dict insertion order). -/
def appendPoint (ts : TrajStore) (id : Nat) (p : Int × Int) : TrajStore :=
  if (ts.filter (fun e => e.1 = id)).isEmpty then ts ++ [(id, [p])]
  else ts.map (fun e => if e.1 = id then (e.1, e.2 ++ [p]) else e)

/-- Lookup in the trajectory store (`self.tracks[track_id]` after the
append, so the key is present). -/
def lookupTrack (ts : TrajStore) (id : Nat) : List (Int × Int) :=
  match ts.filter (fun e => e.1 = id) with
  | [] => []
  | e :: _ => e.2

/-- `ObjectTracker.update(detections, frame_shape)`.  `frameShape` is
accepted (the pipeline passes the frame's dimensions) but, as in the
source, never read.  Returns the updated tracker and the tracked-object
list. -/
def Tracker.update {σ : Type} (tr : Tracker σ) (detections : List Detection)
    (frameShape : Nat × Nat) : Tracker σ × List TrackedObject :=
  let _ := frameShape
  if detections.isEmpty then (tr, [])
  else
    let (bs, svTracks) := tr.byteUpdate tr.byteState detections
    let step := fun (acc : TrajStore × List TrackedObject) (t : SvTrack) =>
      match t.trackerId with
      | none => acc
      | some id =>
        let cx := truncInt ((t.x1 + t.x2) / 2)
        let cy := truncInt ((t.y1 + t.y2) / 2)
        let ts := appendPoint acc.1 id (cx, cy)
        (ts, acc.2 ++ [{ id := id, bbox := (t.x1, t.y1, t.x2, t.y2),
                         center := (cx, cy),
                         classId := t.classId.getD 0,
                         confidence := t.confidence.getD 1,
                         trajectory := lookupTrack ts id }])
    let (ts, objs) := svTracks.foldl step (tr.tracks, [])
    ({ tr with byteState := bs, tracks := ts }, objs)

/-- `ObjectTracker.get_all_trajectories`. -/
def Tracker.get_all_trajectories {σ : Type} (tr : Tracker σ) : TrajStore :=
  tr.tracks

/-! ### `TrajectoryVisualizer.draw_frame` (visualizer.py lines 44-108) -/

/-- The fixed 100-colour palette built in the constructor
(`_generate_colors(100)`), with HSV→BGR conversion abstract. -/
def genColors (lib : CvLib) : List (Fin 3 → ℚ) :=
  (List.range 100).map fun i => lib.hsv2bgr (180 * i / 100)

/-- The heatmap-overlay block of `draw_frame` (lines 49-66): increments
`_frame_count`, refreshes the cache from `create_heatmap` when absent or on
the update interval, resizes a stale cache to the frame size and
alpha-blends it onto the frame.  Only entered when `show_heatmap` is set
and `all_trajectories` is truthy (a non-`None`, non-empty dict). -/
def drawHeatmapOverlay (lib : CvLib) (st : VisState) (frame vis : ColorImg)
    (allTraj : TrajStore) : VisState × ColorImg :=
  let n := st.frameCount + 1
  let cache :=
    if st.heatmapCache.isNone ∨ n % st.heatmapUpdateInterval = 0 then
      some (CacheImg.color (create_heatmap lib (frame.h, frame.w) allTraj))
    else st.heatmapCache
  match cache with
  | none => ({ st with frameCount := n, heatmapCache := cache }, vis)
  | some c =>
    let c' := if c.spatial ≠ (frame.h, frame.w) then
        match c with
        | .gray g => CacheImg.gray (lib.resizeG g frame.w frame.h)
        | .color ci => CacheImg.color (lib.resizeC ci frame.w frame.h)
      else c
    let blended := match c' with
      | .color ci => lib.addWeighted vis (1 - st.heatmapAlpha) ci st.heatmapAlpha
      | .gray _ => vis
    ({ st with frameCount := n, heatmapCache := some c' }, blended)

/-- `trajectory[-n:]` (Python slice of the last `n` elements; for `n = 0`
the slice `l[-0:]` is `l[0:]`, the whole list). -/
def lastN {α : Type} (l : List α) (n : Nat) : List α :=
  if n = 0 then l else l.drop (l.length - n)

/-- `trajectory[::5]` (every 5th element starting at index 0). -/
def everyFifth {α : Type} (l : List α) : List α :=
  (l.enum.filter (fun p => p.1 % 5 = 0)).map (·.2)

/-- The per-object annotation body of `draw_frame` (lines 68-106):
bounding box, ID label, fading trajectory polyline and every-5th-point
markers, all through the abstract drawing primitives. -/
def drawObject (lib : CvLib) (st : VisState) (vis : ColorImg)
    (obj : TrackedObject) : ColorImg :=
  let color := (genColors lib).getD (obj.id % 100) (fun _ => 0)
  let vis := if st.showBbox then
      lib.rect vis (truncInt obj.bbox.1, truncInt obj.bbox.2.1)
        (truncInt obj.bbox.2.2.1, truncInt obj.bbox.2.2.2) color
    else vis
  let vis := if st.showId then
      lib.putText vis ("ID: " ++ toString obj.id)
        (obj.center.1 - 20, obj.center.2 - 10) color
    else vis
  if st.showTrajectory ∧ obj.trajectory.length > 1 then
    let traj := lastN obj.trajectory st.trajectoryLength
    let vis := (List.range' 1 (traj.length - 1)).foldl (fun v i =>
      let thickness := st.trajectoryThickness * i / traj.length
      lib.lineC v (traj.getD (i - 1) (0, 0)) (traj.getD i (0, 0)) color
        (max 1 thickness)) vis
    (everyFifth traj).enum.foldl (fun v ip =>
      lib.circleC v ip.2 (max 1 (3 * ip.1 / traj.length)) color) vis
  else vis

/-- `TrajectoryVisualizer.draw_frame(frame, tracked_objects,
all_trajectories)`.  Returns the updated visualizer state (the heatmap
branch mutates `_frame_count` and `_heatmap_cache`) and the annotated copy
of the frame. -/
def draw_frame (lib : CvLib) (st : VisState) (frame : ColorImg)
    (trackedObjects : List TrackedObject) (allTraj : Option TrajStore) :
    VisState × ColorImg :=
  let (st, vis) :=
    match allTraj with
    | some ts => if st.showHeatmap ∧ ¬ts.isEmpty then
        drawHeatmapOverlay lib st frame frame ts
      else (st, frame)
    | none => (st, frame)
  (st, trackedObjects.foldl (drawObject lib st) vis)

/-! ### Video sources (sources/base.py, sources/video.py, sources/webcam.py)

`cv2.VideoCapture` is external; it is modelled as a handle with an open
flag.  `VideoCapture.release()` is documented by OpenCV as safe and
repeatable, so it is a total state update; the wrappers' own guards and
property dictionaries are translated exactly. -/

/-- A `cv2.VideoCapture` handle: only its open/closed state matters for
the lifecycle contract. -/
structure CvCap where
  opened : Bool

/-- `cap.release()`: closes the handle; total (never raises) and
idempotent at the `cv2` level. -/
def CvCap.release (c : CvCap) : CvCap := { c with opened := false }

/-- `VideoFileSource`: the `cap` attribute (an `Option` to mirror the
`if self.cap is not None` guard in `release`) and the stored file path. -/
structure VideoFileSource where
  cap : Option CvCap
  filePath : String

/-- `VideoFileSource.release` (video.py lines 38-41). -/
def VideoFileSource.release (s : VideoFileSource) : VideoFileSource :=
  match s.cap with
  | none => s
  | some c => { s with cap := some c.release }

/-- `VideoFileSource.is_open` (video.py lines 55-58). -/
def VideoFileSource.is_open (s : VideoFileSource) : Bool :=
  match s.cap with
  | none => false
  | some c => c.opened

/-- `WebcamSource`: the `cap` attribute and the stored camera index. -/
structure WebcamSource where
  cap : Option CvCap
  cameraIndex : Nat

/-- `WebcamSource.release` (webcam.py lines 35-38). -/
def WebcamSource.release (s : WebcamSource) : WebcamSource :=
  match s.cap with
  | none => s
  | some c => { s with cap := some c.release }

/-- `WebcamSource.is_open` (webcam.py lines 52-55). -/
def WebcamSource.is_open (s : WebcamSource) : Bool :=
  match s.cap with
  | none => false
  | some c => c.opened

/-- The filesystem / device environment the constructors probe: whether a
path exists, whether `cv2.VideoCapture` opens a file, whether it opens a
camera index. -/
structure FsEnv where
  fileExists : String → Bool
  openFileOk : String → Bool
  openCameraOk : Nat → Bool

/-- `VideoFileSource.__init__` (video.py lines 12-31): raises
`FileNotFoundError` when the path does not exist, `RuntimeError` when
OpenCV cannot open the file, otherwise holds an open capture. -/
def VideoFileSource.init (env : FsEnv) (filePath : String) :
    Except String VideoFileSource :=
  if ¬env.fileExists filePath then
    .error ("Video file not found: " ++ filePath)
  else if ¬env.openFileOk filePath then
    .error ("Failed to open video file: " ++ filePath)
  else
    .ok { cap := some { opened := true }, filePath := filePath }

/-- `WebcamSource.__init__` (webcam.py lines 11-28): raises `RuntimeError`
when the camera cannot be opened. -/
def WebcamSource.init (env : FsEnv) (cameraIndex : Nat) :
    Except String WebcamSource :=
  if ¬env.openCameraOk cameraIndex then
    .error ("Failed to open camera " ++ toString cameraIndex)
  else
    .ok { cap := some { opened := true }, cameraIndex := cameraIndex }

/-- The property dictionary returned by `get_properties`; only the keys
the pipeline and the claims read are modelled.  `fps` and dimensions are
`Int` (the Python code wraps every `cap.get` in `int(...)`). -/
structure SourceProps where
  width : Int
  height : Int
  fps : Int
  frameCount : Int
  currentFrame : Int
  sourceType : String

/-- `WebcamSource.get_properties` (webcam.py lines 40-50) as a function of
the raw values the `cv2` device reports (already truncated by `int(...)`).
`int(...) or 30` substitutes 30 exactly when the truncated fps is 0;
`frame_count` is the hard-coded `-1` sentinel. -/
def WebcamSource.get_properties (s : WebcamSource)
    (rawW rawH rawFps rawPos : Int) : SourceProps :=
  let _ := s
  { width := rawW, height := rawH,
    fps := if rawFps = 0 then 30 else rawFps,
    frameCount := -1,
    currentFrame := rawPos,
    sourceType := "webcam" }

/-! ### `TrackingPipeline` (processors/pipeline.py) -/

/-- Frame metadata: the pipeline either defaults it to `{}` or builds
`{'frame_number': n, 'source_properties': props}`. -/
inductive Metadata where
  | empty : Metadata
  | video : Nat → SourceProps → Metadata

/-- The context dict handed to each custom frame processor. -/
structure ProcCtx where
  detections : List Detection
  trackedObjects : List TrackedObject
  metadata : Metadata

/-- The dict returned by `process_frame`. -/
structure FrameResult where
  frame : ColorImg
  detections : List Detection
  trackedObjects : List TrackedObject
  metadata : Metadata

/-- `TrackingPipeline`: detector (opaque external inference), tracker,
visualizer state and the registered frame processors. -/
structure Pipeline (σ : Type) where
  detect : ColorImg → List Detection
  tracker : Tracker σ
  vis : VisState
  frameProcessors : List (ColorImg → ProcCtx → ColorImg)

/-- `TrackingPipeline.add_frame_processor`. -/
def Pipeline.add_frame_processor {σ : Type} (p : Pipeline σ)
    (proc : ColorImg → ProcCtx → ColorImg) : Pipeline σ :=
  { p with frameProcessors := p.frameProcessors ++ [proc] }

/-- `TrackingPipeline.process_frame` (pipeline.py lines 37-77): detect on
the frame, track with the detections plus `(height, width)`, render via
`draw_frame` — which, as in the source, receives only the frame and the
tracked objects (the `all_trajectories` parameter is left at its `None`
default) — then fold the registered processors left-to-right over the
rendered frame with the detections/tracked-objects/metadata context. -/
def Pipeline.process_frame {σ : Type} (lib : CvLib) (p : Pipeline σ)
    (frame : ColorImg) (metadata : Metadata := .empty) :
    Pipeline σ × FrameResult :=
  let detections := p.detect frame
  let (tracker, trackedObjects) :=
    p.tracker.update detections (frame.h, frame.w)
  let (vis, visFrame) := draw_frame lib p.vis frame trackedObjects none
  let ctx : ProcCtx := ⟨detections, trackedObjects, metadata⟩
  let finalFrame := p.frameProcessors.foldl (fun f proc => proc f ctx) visFrame
  ({ p with tracker := tracker, vis := vis },
   ⟨finalFrame, detections, trackedObjects, metadata⟩)

/-- A video source as `process_video` consumes it: its property dict and
the finite sequence of `(ret, frame)` answers `read()` will give.  A
`(False, _)` or `(_, None)` entry — and, in this finite model, the end of
the list — is the exhaustion signal that breaks the loop. -/
structure SimSource where
  props : SourceProps
  reads : List (Bool × Option ColorImg)

/-- The summary dict returned by `process_video`, plus the observable
effects of the run: the ordered list of `(frame_num, total_frames)`
progress-callback invocations and the frames written to the output video. -/
structure VideoRunResult (σ : Type) where
  pipeline : Pipeline σ
  framesProcessed : Nat
  totalObjectsTracked : Nat
  trajectories : TrajStore
  sourceProps : SourceProps
  callbackCalls : List (Nat × Int)
  writtenFrames : List ColorImg

/-- The `while True` read loop of `process_video` (pipeline.py lines
108-136).  `quitKey n` models `cv2.waitKey(1) & 0xFF == ord('q')` on the
preview shown for frame `n`; the quit break happens after the frame is
processed and written but before the progress callback fires and the
counter increments, exactly as in the source. -/
def processVideoLoop {σ : Type} (lib : CvLib) (props : SourceProps)
    (totalFrames : Int) (hasOut showPreview hasCallback : Bool)
    (quitKey : Nat → Bool) :
    Pipeline σ → List (Bool × Option ColorImg) → Nat →
    List (Nat × Int) → List ColorImg →
    Pipeline σ × Nat × List (Nat × Int) × List ColorImg
  | p, [], n, calls, written => (p, n, calls, written)
  | p, r :: rest, n, calls, written =>
    match r with
    | (false, _) => (p, n, calls, written)
    | (_, none) => (p, n, calls, written)
    | (true, some frame) =>
      let (p', result) := p.process_frame lib frame (.video n props)
      let written' := if hasOut then written ++ [result.frame] else written
      if showPreview ∧ quitKey n then (p', n, calls, written')
      else
        let calls' := if hasCallback then calls ++ [(n, totalFrames)] else calls
        processVideoLoop lib props totalFrames hasOut showPreview hasCallback
          quitKey p' rest (n + 1) calls' written'

/-- `TrackingPipeline.process_video` (pipeline.py lines 79-152). -/
def Pipeline.process_video {σ : Type} (lib : CvLib) (p : Pipeline σ)
    (source : SimSource) (hasOut : Bool) (showPreview : Bool)
    (hasCallback : Bool) (quitKey : Nat → Bool) : VideoRunResult σ :=
  let props := source.props
  let totalFrames := props.frameCount
  let (p', n, calls, written) :=
    processVideoLoop lib props totalFrames hasOut showPreview hasCallback
      quitKey p source.reads 0 [] []
  let allTrajectories := p'.tracker.get_all_trajectories
  { pipeline := p',
    framesProcessed := n,
    totalObjectsTracked := allTrajectories.length,
    trajectories := allTrajectories,
    sourceProps := props,
    callbackCalls := calls,
    writtenFrames := written }

/-- `TrackingPipeline.generate_heatmap` (pipeline.py lines 154-164). -/
def Pipeline.generate_heatmap {σ : Type} (lib : CvLib) (p : Pipeline σ)
    (frameShape : Nat × Nat) : ColorImg :=
  create_heatmap lib frameShape p.tracker.get_all_trajectories

/-! ## Shared helper definitions and lemmas -/

/-- A concrete instantiation of the abstract OpenCV primitives, used by
witnesses: blur is the identity, resizes reindex to the target shape,
grayscale takes the first channel, colour maps are the identity on the
first channel, drawing primitives leave the image unchanged and blending
keeps the first operand. -/
def idLib : CvLib where
  blur := id
  resizeG := fun g w h => ⟨h, w, g.data⟩
  resizeC := fun c w h => ⟨h, w, c.data⟩
  bgr2gray := fun c => ⟨c.h, c.w, fun y x => c.data y x 0⟩
  cmap := fun v _ => v
  hsv2bgr := fun h _ => h
  rect := fun i _ _ _ => i
  putText := fun i _ _ _ => i
  lineC := fun i _ _ _ _ => i
  circleC := fun i _ _ _ => i
  addWeighted := fun a _ _ _ => a

/-- A default-configured visualizer state (constructor defaults of
`TrajectoryVisualizer`). -/
def visPlain : VisState :=
  { trajectoryLength := 50, trajectoryThickness := 2, showBbox := true,
    showId := true, showTrajectory := true, showHeatmap := false,
    heatmapAlpha := 6 / 10, heatmapUpdateInterval := 10,
    heatmapCache := none, frameCount := 0 }

/-- A constant-1 1×1 field: a blur fixed point (for identity blur) with
maximum 1, used by the C2 witness. -/
def onesG11 : GrayImg := ⟨1, 1, fun _ _ => 1⟩

/-- A visualizer state caching the raw field `onesG11`. -/
def stGray : VisState := { visPlain with heatmapCache := some (.gray onesG11) }

/-- A concrete 2×2 colorized (3-channel) image, standing for a cache left
behind by a prior static render. -/
def colorCache22 : ColorImg := ⟨2, 2, fun _ _ _ => 1 / 2⟩

/-- A visualizer state whose `_heatmap_cache` holds the colorized image
`colorCache22` (as `draw_frame` leaves it after calling
`create_heatmap`). -/
def stColor : VisState := { visPlain with heatmapCache := some (.color colorCache22) }

/-- A visualizer configuration with the heatmap overlay enabled and an
empty cache, for the C1 counterexample. -/
def visShowHeat : VisState :=
  { trajectoryLength := 50, trajectoryThickness := 2, showBbox := true,
    showId := true, showTrajectory := true, showHeatmap := true,
    heatmapAlpha := 6 / 10, heatmapUpdateInterval := 10,
    heatmapCache := none, frameCount := 0 }

/-- A concrete pipeline whose tracker already holds a non-empty trajectory
store and whose detector reports nothing, for the C1 counterexample. -/
def pipeHeat : Pipeline Unit :=
  { detect := fun _ => [],
    tracker := { byteUpdate := fun s _ => (s, []), byteState := (),
                 tracks := [(0, [(5, 5)])] },
    vis := visShowHeat,
    frameProcessors := [] }

/-- A concrete 2×2 black frame. -/
def smallFrame : ColorImg := ⟨2, 2, fun _ _ _ => 0⟩

/-- A concrete pipeline whose detector reports nothing, with a fresh
tracker and no post-processors. -/
def pipeEmpty : Pipeline Unit :=
  { detect := fun _ => [],
    tracker := { byteUpdate := fun s _ => (s, []), byteState := (),
                 tracks := [] },
    vis := visPlain,
    frameProcessors := [] }

/-- Concrete file-source properties reporting three frames, for the C5
witness. -/
def props3 : SourceProps :=
  { width := 640, height := 480, fps := 30, frameCount := 3,
    currentFrame := 0, sourceType := "file" }

theorem GrayImg.ext' {a b : GrayImg} (hh : a.h = b.h) (hw : a.w = b.w)
    (hd : a.data = b.data) : a = b := by
  cases a; cases b; cases hh; cases hw; cases hd; rfl

/-- Folding a dimension-preserving step preserves dimensions. -/
theorem foldl_preserves_dims {α : Type} (step : GrayImg → α → GrayImg)
    (hstep : ∀ g a, (step g a).h = g.h ∧ (step g a).w = g.w) :
    ∀ (l : List α) (g : GrayImg),
      ((l.foldl step g).h = g.h ∧ (l.foldl step g).w = g.w) := by
  intro l
  induction l with
  | nil => intro g; exact ⟨rfl, rfl⟩
  | cons a t ih =>
    intro g
    have h1 := hstep g a
    have h2 := ih (step g a)
    exact ⟨h2.1.trans h1.1, h2.2.trans h1.2⟩

theorem stampCircle_dims (g : GrayImg) (cx cy : Int) (r : Nat) (v : ℚ) :
    (stampCircle g cx cy r v).h = g.h ∧ (stampCircle g cx cy r v).w = g.w :=
  ⟨rfl, rfl⟩

theorem stampWeighted_dims (h w : Nat) (trajs : TrajStore) :
    (stampWeighted h w trajs).h = h ∧ (stampWeighted h w trajs).w = w := by
  unfold stampWeighted
  refine foldl_preserves_dims _ ?_ trajs (zerosG h w)
  intro g entry
  by_cases hl : entry.2.length > 0
  · rw [if_pos hl]
    refine foldl_preserves_dims _ ?_ entry.2.enum g
    intro g2 pi
    by_cases hb : 0 ≤ pi.2.1 ∧ pi.2.1 < (w : Int) ∧ 0 ≤ pi.2.2 ∧ pi.2.2 < (h : Int)
    · rw [if_pos hb]; exact ⟨rfl, rfl⟩
    · rw [if_neg hb]; exact ⟨rfl, rfl⟩
  · rw [if_neg hl]; exact ⟨rfl, rfl⟩

theorem stampStatic_dims (h w : Nat) (trajs : TrajStore) :
    (stampStatic h w trajs).h = h ∧ (stampStatic h w trajs).w = w := by
  unfold stampStatic
  exact foldl_preserves_dims
    (fun acc entry => entry.2.foldl (fun acc2 p => stampCircle acc2 p.1 p.2 20 1) acc)
    (fun g entry => foldl_preserves_dims (fun acc2 p => stampCircle acc2 p.1 p.2 20 1)
      (fun g2 p => ⟨rfl, rfl⟩) entry.2 g)
    trajs (zerosG h w)

theorem le_foldl_max (l : List ℚ) : ∀ s : ℚ, s ≤ l.foldl max s := by
  induction l with
  | nil => intro s; exact le_refl s
  | cons a t ih => intro s; exact le_trans (le_max_left s a) (ih (max s a))

theorem foldl_min_le (l : List ℚ) : ∀ s : ℚ, l.foldl min s ≤ s := by
  induction l with
  | nil => intro s; exact le_refl s
  | cons a t ih => intro s; exact le_trans (ih (min s a)) (min_le_left s a)

/-- On any field, `max - min` (as computed by the seeded folds) is
non-negative. -/
theorem maxVal_sub_minVal_nonneg (g : GrayImg) : 0 ≤ g.maxVal - g.minVal := by
  have h1 := le_foldl_max g.vals (g.data 0 0)
  have h2 := foldl_min_le g.vals (g.data 0 0)
  unfold GrayImg.maxVal GrayImg.minVal
  linarith

/-- If every in-domain value of a non-degenerate field equals `c`, then
both seeded folds give `c` (the seed `(0,0)` is in the domain). -/
theorem foldl_max_const (c : ℚ) : ∀ (l : List ℚ), (∀ x ∈ l, x = c) →
    l.foldl max c = c := by
  intro l
  induction l with
  | nil => intro _; rfl
  | cons a t ih =>
    intro hmem
    have ha : a = c := hmem a (List.mem_cons_self a t)
    simp only [List.foldl_cons, ha, max_self]
    exact ih fun x hx => hmem x (List.mem_cons_of_mem a hx)

theorem foldl_min_const (c : ℚ) : ∀ (l : List ℚ), (∀ x ∈ l, x = c) →
    l.foldl min c = c := by
  intro l
  induction l with
  | nil => intro _; rfl
  | cons a t ih =>
    intro hmem
    have ha : a = c := hmem a (List.mem_cons_self a t)
    simp only [List.foldl_cons, ha, min_self]
    exact ih fun x hx => hmem x (List.mem_cons_of_mem a hx)

theorem vals_all_const {g : GrayImg} {c : ℚ}
    (hconst : ∀ y x, y < g.h → x < g.w → g.data y x = c) :
    ∀ v ∈ g.vals, v = c := by
  intro v hv
  unfold GrayImg.vals at hv
  obtain ⟨y, hy, hv2⟩ := List.mem_flatMap.mp hv
  obtain ⟨x, hx, hv3⟩ := List.mem_map.mp hv2
  rw [← hv3]
  exact hconst y x (List.mem_range.mp hy) (List.mem_range.mp hx)

/-- `normMax` on a field whose maximum is 1 is the identity. -/
theorem normMax_of_max_one {g : GrayImg} (hmax : g.maxVal = 1) :
    normMax g = g := by
  unfold normMax
  rw [if_pos (by rw [hmax]; norm_num)]
  exact GrayImg.ext' rfl rfl (by funext y x; simp [hmax])

/-- Reduction of `create_realtime_heatmap` when the cache holds a raw
intensity field of the current spatial shape: no resize, no conversion;
the cache is decayed and added to the fresh contribution, then blurred,
normalised, cached and colorized. -/
theorem realtime_from_gray_cache (lib : CvLib) (st : VisState) (g : GrayImg)
    (s1 s2 : Nat) (trajs : TrajStore) (decay : ℚ)
    (hc : st.heatmapCache = some (.gray g)) (hh : g.h = s1) (hw : g.w = s2) :
    create_realtime_heatmap lib st (s1, s2) trajs decay =
      .ok ({ st with heatmapCache := some (.gray (normMax (lib.blur
              ⟨g.h, g.w, fun y x =>
                g.data y x * decay + (stampWeighted s1 s2 trajs).data y x⟩))) },
           colorize lib (normMax (lib.blur
              ⟨g.h, g.w, fun y x =>
                g.data y x * decay + (stampWeighted s1 s2 trajs).data y x⟩))) := by
  have hdims := stampWeighted_dims s1 s2 trajs
  have hrec : reconcileCache lib (.gray g)
      (stampWeighted s1 s2 trajs).h (stampWeighted s1 s2 trajs).w =
      .gray g := by
    unfold reconcileCache
    rw [if_neg]
    simp only [CacheImg.spatial, hdims.1, hdims.2, hh, hw, ne_eq,
      not_true_eq_false, not_false_eq_true, Prod.mk.injEq, not_and]
  have hd1 : (scaleG g decay).h = (stampWeighted s1 s2 trajs).h := by
    simp [scaleG, hdims.1, hh]
  have hd2 : (scaleG g decay).w = (stampWeighted s1 s2 trajs).w := by
    simp [scaleG, hdims.2, hw]
  have hadd : addG (scaleG g decay) (stampWeighted s1 s2 trajs) =
      .ok ⟨g.h, g.w, fun y x =>
        g.data y x * decay + (stampWeighted s1 s2 trajs).data y x⟩ := by
    unfold addG
    rw [if_pos ⟨hd1, hd2⟩]
    rfl
  unfold create_realtime_heatmap
  rw [hc]
  dsimp only
  rw [hrec]
  dsimp only
  rw [hadd]
  rfl

/-- Reduction of `create_realtime_heatmap` from an empty cache: the fresh
contribution alone is blurred, normalised, cached and colorized. -/
theorem realtime_from_none (lib : CvLib) (st : VisState) (s1 s2 : Nat)
    (trajs : TrajStore) (decay : ℚ) (hc : st.heatmapCache = none) :
    create_realtime_heatmap lib st (s1, s2) trajs decay =
      .ok ({ st with
             heatmapCache :=
               some (.gray (normMax (lib.blur (stampWeighted s1 s2 trajs)))) },
           colorize lib (normMax (lib.blur (stampWeighted s1 s2 trajs)))) := by
  unfold create_realtime_heatmap
  rw [hc]
  rfl

/-! ## Claims -/

/-- **C2.** The decaying heatmap update.
(1) With `decay_factor = 0` the update is memoryless: from any raw cached
field of the current shape it produces exactly the result of the same
update run with no cache at all, for arbitrary fed trajectories (in
particular a fixed point fed every update), so the cached field after any
update equals the processed fresh single-frame contribution.
(2) With `decay_factor = 1` and zero new trajectory contributions, the new
cached field is exactly the blur-and-renormalisation of the old one — the
combination step itself changes nothing ("unchanged within
blur/normalization rounding").
(3) In particular, if the cached field is a fixed point of the blur and
already normalised to maximum 1, it is exactly unchanged. -/
theorem realtime_heatmap_decay_memory (lib : CvLib) :
    (∀ (st : VisState) (g : GrayImg) (s1 s2 : Nat) (trajs : TrajStore),
      st.heatmapCache = some (.gray g) → g.h = s1 → g.w = s2 →
      create_realtime_heatmap lib st (s1, s2) trajs 0 =
        create_realtime_heatmap lib { st with heatmapCache := none }
          (s1, s2) trajs 0 ∧
      create_realtime_heatmap lib st (s1, s2) trajs 0 =
        .ok ({ st with
               heatmapCache :=
                 some (.gray (normMax (lib.blur (stampWeighted s1 s2 trajs)))) },
             colorize lib (normMax (lib.blur (stampWeighted s1 s2 trajs))))) ∧
    (∀ (st : VisState) (g : GrayImg) (s1 s2 : Nat),
      st.heatmapCache = some (.gray g) → g.h = s1 → g.w = s2 →
      create_realtime_heatmap lib st (s1, s2) [] 1 =
        .ok ({ st with
               heatmapCache := some (.gray (normMax (lib.blur g))) },
             colorize lib (normMax (lib.blur g)))) ∧
    (∀ (st : VisState) (g : GrayImg) (s1 s2 : Nat),
      st.heatmapCache = some (.gray g) → g.h = s1 → g.w = s2 →
      lib.blur g = g → g.maxVal = 1 →
      create_realtime_heatmap lib st (s1, s2) [] 1 =
        .ok ({ st with heatmapCache := some (.gray g) }, colorize lib g)) := by
  have key : ∀ (st : VisState) (g : GrayImg) (s1 s2 : Nat)
      (trajs : TrajStore) (decay : ℚ),
      st.heatmapCache = some (.gray g) → g.h = s1 → g.w = s2 →
      decay = 0 →
      create_realtime_heatmap lib st (s1, s2) trajs decay =
        .ok ({ st with
               heatmapCache :=
                 some (.gray (normMax (lib.blur (stampWeighted s1 s2 trajs)))) },
             colorize lib (normMax (lib.blur (stampWeighted s1 s2 trajs)))) := by
    intro st g s1 s2 trajs decay hc hh hw hd
    rw [realtime_from_gray_cache lib st g s1 s2 trajs decay hc hh hw]
    have hcomb : (⟨g.h, g.w, fun y x =>
        g.data y x * decay + (stampWeighted s1 s2 trajs).data y x⟩ : GrayImg) =
        stampWeighted s1 s2 trajs := by
      refine GrayImg.ext' ?_ ?_ ?_
      · rw [(stampWeighted_dims s1 s2 trajs).1, hh]
      · rw [(stampWeighted_dims s1 s2 trajs).2, hw]
      · funext y x
        show g.data y x * decay + (stampWeighted s1 s2 trajs).data y x = _
        rw [hd, mul_zero, zero_add]
    rw [hcomb]
  have key1 : ∀ (st : VisState) (g : GrayImg) (s1 s2 : Nat),
      st.heatmapCache = some (.gray g) → g.h = s1 → g.w = s2 →
      create_realtime_heatmap lib st (s1, s2) [] 1 =
        .ok ({ st with
               heatmapCache := some (.gray (normMax (lib.blur g))) },
             colorize lib (normMax (lib.blur g))) := by
    intro st g s1 s2 hc hh hw
    rw [realtime_from_gray_cache lib st g s1 s2 [] 1 hc hh hw]
    have hcomb : (⟨g.h, g.w, fun y x =>
        g.data y x * 1 + (stampWeighted s1 s2 []).data y x⟩ : GrayImg) = g := by
      refine GrayImg.ext' rfl rfl ?_
      funext y x
      show g.data y x * 1 + (0 : ℚ) = g.data y x
      rw [mul_one, add_zero]
    rw [hcomb]
  refine ⟨?_, key1, ?_⟩
  · intro st g s1 s2 trajs hc hh hw
    constructor
    · rw [key st g s1 s2 trajs 0 hc hh hw rfl,
        realtime_from_none lib { st with heatmapCache := none } s1 s2 trajs 0
          rfl]
    · exact key st g s1 s2 trajs 0 hc hh hw rfl
  · intro st g s1 s2 hc hh hw hblur hmax
    rw [key1 st g s1 s2 hc hh hw, hblur, normMax_of_max_one hmax]

/-- Witness for C2, applying all three parts at concrete inputs. -/
theorem realtime_heatmap_decay_memory_witness :
    (create_realtime_heatmap idLib stGray (1, 1) [(0, [(0, 0)])] 0 =
      create_realtime_heatmap idLib { stGray with heatmapCache := none }
        (1, 1) [(0, [(0, 0)])] 0) ∧
    (create_realtime_heatmap idLib stGray (1, 1) [] 1 =
      .ok ({ stGray with
             heatmapCache := some (.gray (normMax (idLib.blur onesG11))) },
           colorize idLib (normMax (idLib.blur onesG11)))) ∧
    (create_realtime_heatmap idLib stGray (1, 1) [] 1 =
      .ok ({ stGray with heatmapCache := some (.gray onesG11) },
           colorize idLib onesG11)) :=
  ⟨((realtime_heatmap_decay_memory idLib).1 stGray onesG11 1 1 [(0, [(0, 0)])]
      rfl rfl rfl).1,
   (realtime_heatmap_decay_memory idLib).2.1 stGray onesG11 1 1 rfl rfl rfl,
   (realtime_heatmap_decay_memory idLib).2.2 stGray onesG11 1 1 rfl rfl rfl
     rfl (by decide)⟩

/-- **C3 (counterexample).** The claim says the decaying-heatmap update
converts a colorized (3-channel) cache back to a single-channel field
*whenever* it finds one, so that the combination step always operates on a
single-channel field.  It does not: the conversion sits inside the
spatial-size-mismatch branch only.  Concretely, with a 3-channel cache
whose spatial size (2×2) already matches the current frame, the update
reaches the combination step with the cache still 3-channel and the numpy
addition fails with a broadcast error, instead of the successful
single-channel combination the claim implies. -/
theorem realtime_color_cache_not_converted :
    create_realtime_heatmap idLib stColor (2, 2) [] (95 / 100) =
      Except.error "operands could not be broadcast together" := rfl

/-- **C3 (amended).** The decaying-heatmap update converts a colorized
cache back to a single-channel intensity field *only* inside the
resize branch: when the cached image's spatial size differs from the
current frame it is resized and, being 3-channel, converted to grayscale
(divided by 255) before the decay-and-combine step, which then succeeds
and caches a single-channel field; when a colorized cache already has the
current spatial size, no conversion happens and the update raises a
broadcast error at the combination step. -/
theorem realtime_color_cache_conversion_only_on_resize (lib : CvLib)
    (hresC : ∀ (c : ColorImg) (w h : Nat),
      (lib.resizeC c w h).h = h ∧ (lib.resizeC c w h).w = w)
    (hgray : ∀ c : ColorImg,
      (lib.bgr2gray c).h = c.h ∧ (lib.bgr2gray c).w = c.w) :
    ∀ (st : VisState) (c : ColorImg) (s1 s2 : Nat) (trajs : TrajStore)
      (d : ℚ), st.heatmapCache = some (.color c) →
      ((c.h, c.w) = (s1, s2) →
        create_realtime_heatmap lib st (s1, s2) trajs d =
          Except.error "operands could not be broadcast together") ∧
      ((c.h, c.w) ≠ (s1, s2) →
        ∃ out, create_realtime_heatmap lib st (s1, s2) trajs d =
            Except.ok out ∧
          out.1.heatmapCache = some (.gray (normMax (lib.blur
            ⟨s1, s2, fun y x =>
              (scaleG (lib.bgr2gray (lib.resizeC c s2 s1)) (1 / 255)).data y x
                  * d +
                (stampWeighted s1 s2 trajs).data y x⟩)))) := by
  intro st c s1 s2 trajs d hc
  have hdims := stampWeighted_dims s1 s2 trajs
  constructor
  · intro hsame
    unfold create_realtime_heatmap
    rw [hc]
    dsimp only
    have hrec : reconcileCache lib (.color c)
        (stampWeighted s1 s2 trajs).h (stampWeighted s1 s2 trajs).w =
        .color c := by
      unfold reconcileCache
      rw [if_neg]
      simp only [CacheImg.spatial, hdims.1, hdims.2, ne_eq, not_not, hsame]
    rw [hrec]
    rfl
  · intro hdiff
    unfold create_realtime_heatmap
    rw [hc]
    dsimp only
    have hrec : reconcileCache lib (.color c)
        (stampWeighted s1 s2 trajs).h (stampWeighted s1 s2 trajs).w =
        .gray (scaleG (lib.bgr2gray (lib.resizeC c
          (stampWeighted s1 s2 trajs).w (stampWeighted s1 s2 trajs).h))
          (1 / 255)) := by
      unfold reconcileCache
      rw [if_pos]
      simp only [CacheImg.spatial, hdims.1, hdims.2, ne_eq]
      exact hdiff
    rw [hrec]
    dsimp only
    have hconv : scaleG (lib.bgr2gray (lib.resizeC c
        (stampWeighted s1 s2 trajs).w (stampWeighted s1 s2 trajs).h))
        (1 / 255) =
        scaleG (lib.bgr2gray (lib.resizeC c s2 s1)) (1 / 255) := by
      rw [hdims.1, hdims.2]
    rw [hconv]
    have hg := hgray (lib.resizeC c s2 s1)
    have hr := hresC c s2 s1
    have hadd : addG (scaleG (scaleG (lib.bgr2gray (lib.resizeC c s2 s1))
        (1 / 255)) d) (stampWeighted s1 s2 trajs) =
        .ok ⟨s1, s2, fun y x =>
          (scaleG (lib.bgr2gray (lib.resizeC c s2 s1)) (1 / 255)).data y x * d +
            (stampWeighted s1 s2 trajs).data y x⟩ := by
      unfold addG
      rw [if_pos ⟨by simp [scaleG, hg.1, hr.1, hdims.1],
                  by simp [scaleG, hg.2, hr.2, hdims.2]⟩]
      refine congrArg Except.ok (GrayImg.ext' ?_ ?_ rfl)
      · simp [scaleG, hg.1, hr.1]
      · simp [scaleG, hg.2, hr.2]
    rw [hadd]
    exact ⟨_, rfl, rfl⟩

/-- Witness for C3 (amended): the colorized 2×2 cache against a 3×3 frame
takes the resize branch, is converted to a single-channel field, and the
update succeeds with a single-channel cache. -/
theorem realtime_color_cache_conversion_witness :
    ∃ out, create_realtime_heatmap idLib stColor (3, 3) [] (95 / 100) =
        Except.ok out ∧
      out.1.heatmapCache = some (.gray (normMax (idLib.blur
        ⟨3, 3, fun y x =>
          (scaleG (idLib.bgr2gray (idLib.resizeC colorCache22 3 3))
              (1 / 255)).data y x * (95 / 100) +
            (stampWeighted 3 3 []).data y x⟩))) :=
  ((realtime_color_cache_conversion_only_on_resize idLib
      (fun c w h => ⟨rfl, rfl⟩) (fun c => ⟨rfl, rfl⟩)
      stColor colorCache22 3 3 [] (95 / 100) rfl).2 (by decide))

/-- **C4.** `create_heatmap` safety, for any trajectory store (including
the empty one) and any (spatial-size-preserving) blur: the output image
has exactly the requested dimensions; the min-max normalisation
denominator `max - min + 1e-8` is strictly positive — in the embedding
over `ℚ` this is precisely the absence of the division-by-zero that would
produce NaN/Inf pixels in float arithmetic; and on a degenerate (all-equal)
blurred field every in-domain pixel equals the colour of intensity 0, i.e.
the image is uniform rather than a crash. -/
theorem create_heatmap_wellformed (lib : CvLib) (s1 s2 : Nat)
    (trajs : TrajStore)
    (hblur : ∀ g : GrayImg, (lib.blur g).h = g.h ∧ (lib.blur g).w = g.w) :
    (create_heatmap lib (s1, s2) trajs).h = s1 ∧
    (create_heatmap lib (s1, s2) trajs).w = s2 ∧
    0 < (lib.blur (stampStatic s1 s2 trajs)).maxVal
        - (lib.blur (stampStatic s1 s2 trajs)).minVal + heatmapEps ∧
    (∀ c : ℚ,
      (∀ y x, y < s1 → x < s2 →
        (lib.blur (stampStatic s1 s2 trajs)).data y x = c) →
      ∀ y x, y < s1 → x < s2 →
        (create_heatmap lib (s1, s2) trajs).data y x = lib.cmap 0) := by
  have hsd := stampStatic_dims s1 s2 trajs
  have hb := hblur (stampStatic s1 s2 trajs)
  have hbh : (lib.blur (stampStatic s1 s2 trajs)).h = s1 := hb.1.trans hsd.1
  have hbw : (lib.blur (stampStatic s1 s2 trajs)).w = s2 := hb.2.trans hsd.2
  refine ⟨hbh, hbw, ?_, ?_⟩
  · have := maxVal_sub_minVal_nonneg (lib.blur (stampStatic s1 s2 trajs))
    have heps : (0 : ℚ) < heatmapEps := by norm_num [heatmapEps]
    linarith
  · intro c hconst y x hy hx
    set b := lib.blur (stampStatic s1 s2 trajs) with hbdef
    have hc00 : b.data 0 0 = c := hconst 0 0 (by omega) (by omega)
    have hvals : ∀ v ∈ b.vals, v = c := by
      refine vals_all_const ?_
      intro y2 x2 hy2 hx2
      exact hconst y2 x2 (by omega) (by omega)
    have hmin : b.minVal = c := by
      unfold GrayImg.minVal
      rw [hc00]
      exact foldl_min_const c b.vals hvals
    have hcyx : b.data y x = c := hconst y x hy hx
    show lib.cmap (toU8 ((b.data y x - b.minVal) /
      (b.maxVal - b.minVal + heatmapEps))) = lib.cmap 0
    rw [hcyx, hmin, sub_self, zero_div]
    norm_num [toU8, truncInt]

/-- Witness for C4: on an empty trajectory store, a 1×1 frame and the
identity blur, the render has the requested dimensions and is uniform. -/
theorem create_heatmap_wellformed_witness :
    (create_heatmap idLib (1, 1) []).h = 1 ∧
    (create_heatmap idLib (1, 1) []).data 0 0 = idLib.cmap 0 :=
  ⟨(create_heatmap_wellformed idLib 1 1 [] (fun _ => ⟨rfl, rfl⟩)).1,
   (create_heatmap_wellformed idLib 1 1 [] (fun _ => ⟨rfl, rfl⟩)).2.2.2 0
     (fun _ _ _ _ => rfl) 0 0 Nat.one_pos Nat.one_pos⟩

/-- Unfolding lemma for `process_frame` in terms of its collaborators
(shared by several claims). -/
theorem process_frame_unfold {σ : Type} (lib : CvLib) (p : Pipeline σ)
    (frame : ColorImg) (md : Metadata) :
    p.process_frame lib frame md =
      ({ p with
          tracker := (p.tracker.update (p.detect frame) (frame.h, frame.w)).1,
          vis := (draw_frame lib p.vis frame
            (p.tracker.update (p.detect frame) (frame.h, frame.w)).2 none).1 },
       { frame := p.frameProcessors.foldl
           (fun f proc => proc f
             ⟨p.detect frame,
              (p.tracker.update (p.detect frame) (frame.h, frame.w)).2, md⟩)
           (draw_frame lib p.vis frame
             (p.tracker.update (p.detect frame) (frame.h, frame.w)).2 none).2,
         detections := p.detect frame,
         trackedObjects :=
           (p.tracker.update (p.detect frame) (frame.h, frame.w)).2,
         metadata := md }) := rfl

/-- `draw_frame` with no tracked objects and no trajectory store returns
the state untouched and the frame unmodified. -/
theorem draw_frame_nil_none (lib : CvLib) (st : VisState) (frame : ColorImg) :
    draw_frame lib st frame [] none = (st, frame) := rfl

/-- Folding dimension-preserving frame processors preserves frame
dimensions. -/
theorem foldl_procs_dims (ctx : ProcCtx) :
    ∀ (l : List (ColorImg → ProcCtx → ColorImg)),
      (∀ proc ∈ l, ∀ (f : ColorImg) (c : ProcCtx),
        (proc f c).h = f.h ∧ (proc f c).w = f.w) →
      ∀ f : ColorImg,
        (l.foldl (fun f proc => proc f ctx) f).h = f.h ∧
        (l.foldl (fun f proc => proc f ctx) f).w = f.w := by
  intro l
  induction l with
  | nil => intro _ f; exact ⟨rfl, rfl⟩
  | cons proc t ih =>
    intro hl f
    have hp := hl proc (List.mem_cons_self proc t) f ctx
    have ht := ih (fun q hq g c => hl q (List.mem_cons_of_mem proc hq) g c)
      (proc f ctx)
    exact ⟨ht.1.trans hp.1, ht.2.trans hp.2⟩

/-- **C1 (counterexample).** The claim says `process_frame` passes the
tracker's full trajectory store to `draw_frame`.  It does not: the
`all_trajectories` parameter is left at its `None` default.  Concretely:
with the heatmap overlay enabled and a non-empty trajectory store,
`draw_frame` would enter its overlay branch — observable as `_frame_count`
becoming 1 and the cache being populated — had it received the store
(second and third conjuncts), yet after `process_frame` the visualizer's
`_frame_count` is still 0 and the cache still empty (first conjuncts). -/
theorem process_frame_withholds_store :
    ((pipeHeat.process_frame idLib smallFrame .empty).1.vis.frameCount = 0 ∧
     (pipeHeat.process_frame idLib smallFrame .empty).1.vis.heatmapCache
       = none) ∧
    (draw_frame idLib pipeHeat.vis smallFrame []
        (some pipeHeat.tracker.get_all_trajectories)).1.frameCount = 1 ∧
    (draw_frame idLib pipeHeat.vis smallFrame []
        (some pipeHeat.tracker.get_all_trajectories)).1.heatmapCache
      ≠ none := by
  refine ⟨⟨rfl, rfl⟩, rfl, ?_⟩
  intro hcontra
  exact Option.noConfusion hcontra

/-- **C1 (amended).** For every frame and metadata, `process_frame` calls
the detector on the frame, passes the detector's output together with the
frame's `(height, width)` to the tracker's `update`, passes the tracker's
output to the renderer's `draw_frame` — *without* the tracker's trajectory
store, whose parameter stays at its `None` default — and then folds every
registered post-processor in registration order over the rendered frame,
each receiving the current frame and the
detections/tracked-objects/metadata context bundle. -/
theorem process_frame_sequencing {σ : Type} (lib : CvLib) (p : Pipeline σ)
    (frame : ColorImg) (md : Metadata) :
    (p.process_frame lib frame md).2.detections = p.detect frame ∧
    (p.process_frame lib frame md).2.trackedObjects =
      (p.tracker.update (p.detect frame) (frame.h, frame.w)).2 ∧
    (p.process_frame lib frame md).1.tracker =
      (p.tracker.update (p.detect frame) (frame.h, frame.w)).1 ∧
    (p.process_frame lib frame md).1.vis =
      (draw_frame lib p.vis frame
        (p.tracker.update (p.detect frame) (frame.h, frame.w)).2 none).1 ∧
    (p.process_frame lib frame md).2.frame =
      p.frameProcessors.foldl
        (fun f proc => proc f
          ⟨p.detect frame,
           (p.tracker.update (p.detect frame) (frame.h, frame.w)).2, md⟩)
        (draw_frame lib p.vis frame
          (p.tracker.update (p.detect frame) (frame.h, frame.w)).2 none).2 ∧
    (p.process_frame lib frame md).2.metadata = md :=
  ⟨rfl, rfl, rfl, rfl, rfl, rfl⟩

/-- **C6.** On a frame for which the detector reports no detections,
`process_frame` returns an empty tracked-object list and (provided the
registered post-processors preserve frame dimensions, which the pipeline
contract assumes of them) a frame of the same dimensions as the input. -/
theorem process_frame_empty_detections {σ : Type} (lib : CvLib)
    (p : Pipeline σ) (frame : ColorImg) (md : Metadata)
    (hdet : p.detect frame = [])
    (hprocs : ∀ proc ∈ p.frameProcessors, ∀ (f : ColorImg) (c : ProcCtx),
      (proc f c).h = f.h ∧ (proc f c).w = f.w) :
    (p.process_frame lib frame md).2.trackedObjects = [] ∧
    (p.process_frame lib frame md).2.frame.h = frame.h ∧
    (p.process_frame lib frame md).2.frame.w = frame.w := by
  rw [process_frame_unfold]
  simp only [hdet]
  have hupd : p.tracker.update [] (frame.h, frame.w) = (p.tracker, []) := rfl
  rw [hupd]
  simp only [draw_frame_nil_none]
  have hfold := foldl_procs_dims ⟨[], [], md⟩ p.frameProcessors hprocs frame
  refine ⟨?_, hfold.1, hfold.2⟩
  trivial

/-- Witness for C6: a concrete pipeline with an all-reject detector and no
post-processors on the concrete 2×2 frame. -/
theorem process_frame_empty_detections_witness :
    ((pipeEmpty.process_frame idLib smallFrame .empty).2.trackedObjects
        = ([] : List TrackedObject) ∧
      (pipeEmpty.process_frame idLib smallFrame .empty).2.frame.h = 2 ∧
      (pipeEmpty.process_frame idLib smallFrame .empty).2.frame.w = 2) :=
  process_frame_empty_detections idLib pipeEmpty smallFrame .empty rfl
    (by intro proc hproc f c; cases hproc)

/-- The read loop of `process_video`, on a source that answers `read()`
successfully for each listed frame and then signals exhaustion, with no
preview quit: counts every frame and records one callback invocation
`(frame_num, total)` per frame, in order. -/
theorem processVideoLoop_progress {σ : Type} (lib : CvLib)
    (props : SourceProps) (total : Int) (hasOut showPreview : Bool)
    (quitKey : Nat → Bool) (hq : ∀ n, quitKey n = false) :
    ∀ (frames : List ColorImg) (p : Pipeline σ) (n : Nat)
      (calls : List (Nat × Int)) (written : List ColorImg),
      (processVideoLoop lib props total hasOut showPreview true quitKey p
          (frames.map (fun f => (true, some f)) ++ [(false, none)])
          n calls written).2.1 = n + frames.length ∧
      (processVideoLoop lib props total hasOut showPreview true quitKey p
          (frames.map (fun f => (true, some f)) ++ [(false, none)])
          n calls written).2.2.1 =
        calls ++ (List.range' n frames.length).map (fun i => (i, total)) := by
  intro frames
  induction frames with
  | nil =>
    intro p n calls written
    simp [processVideoLoop]
  | cons f t ih =>
    intro p n calls written
    have step :
        processVideoLoop lib props total hasOut showPreview true quitKey p
          (((f :: t).map (fun f => (true, some f))) ++ [(false, none)])
          n calls written =
        processVideoLoop lib props total hasOut showPreview true quitKey
          (p.process_frame lib f (.video n props)).1
          ((t.map (fun f => (true, some f))) ++ [(false, none)])
          (n + 1) (calls ++ [(n, total)])
          (if hasOut then
            written ++ [(p.process_frame lib f (.video n props)).2.frame]
           else written) := by
      simp [processVideoLoop, hq n]
    rw [step]
    have hrec := ih (p.process_frame lib f (.video n props)).1 (n + 1)
      (calls ++ [(n, total)])
      (if hasOut then
        written ++ [(p.process_frame lib f (.video n props)).2.frame]
       else written)
    refine ⟨hrec.1.trans (by simp only [List.length_cons]; omega), ?_⟩
    rw [hrec.2]
    show _ = calls ++ List.map (fun i => (i, total)) (List.range' n (t.length + 1))
    rw [List.range'_succ, List.map_cons, List.append_assoc]
    rfl

/-- **C5.** On a source whose properties report `frame_count = N` and
which delivers exactly `N` successful reads before signalling exhaustion,
`process_video` (with a progress callback registered and no preview quit)
invokes the callback exactly `N` times, with first arguments `0 .. N-1` in
order, each paired with `N`, and the returned summary counts `N` frames
processed. -/
theorem process_video_progress_callback {σ : Type} (lib : CvLib)
    (p : Pipeline σ) (props : SourceProps) (frames : List ColorImg) (N : Nat)
    (hasOut showPreview : Bool) (quitKey : Nat → Bool)
    (hN : props.frameCount = (N : Int)) (hlen : frames.length = N)
    (hq : ∀ n, quitKey n = false) :
    (p.process_video lib
        ⟨props, frames.map (fun f => (true, some f)) ++ [(false, none)]⟩
        hasOut showPreview true quitKey).callbackCalls =
      (List.range N).map (fun i => (i, (N : Int))) ∧
    (p.process_video lib
        ⟨props, frames.map (fun f => (true, some f)) ++ [(false, none)]⟩
        hasOut showPreview true quitKey).framesProcessed = N := by
  have hloop := processVideoLoop_progress lib props props.frameCount hasOut
    showPreview quitKey hq frames p 0 [] []
  unfold Pipeline.process_video
  refine ⟨?_, ?_⟩
  · show (processVideoLoop lib props props.frameCount hasOut showPreview true
        quitKey p (frames.map (fun f => (true, some f)) ++ [(false, none)])
        0 [] []).2.2.1 = _
    rw [hloop.2, hN, hlen, List.nil_append, ← List.range_eq_range']
  · show (processVideoLoop lib props props.frameCount hasOut showPreview true
        quitKey p (frames.map (fun f => (true, some f)) ++ [(false, none)])
        0 [] []).2.1 = _
    rw [hloop.1, hlen, Nat.zero_add]

/-- Witness for C5: a three-frame source drives exactly three callback
invocations `(0,3), (1,3), (2,3)` and a summary of three frames. -/
theorem process_video_progress_callback_witness :
    (pipeEmpty.process_video idLib
        ⟨props3, [smallFrame, smallFrame, smallFrame].map
            (fun f => (true, some f)) ++ [(false, none)]⟩
        false false true (fun _ => false)).callbackCalls =
      (List.range 3).map (fun i => (i, (3 : Int))) ∧
    (pipeEmpty.process_video idLib
        ⟨props3, [smallFrame, smallFrame, smallFrame].map
            (fun f => (true, some f)) ++ [(false, none)]⟩
        false false true (fun _ => false)).framesProcessed = 3 :=
  process_video_progress_callback idLib pipeEmpty props3
    [smallFrame, smallFrame, smallFrame] 3 false false (fun _ => false)
    rfl rfl (fun _ => rfl)

/-- **C7.** For every video source (file-backed or webcam), calling
`release` any number of times never raises — in the embedding `release` is
a total state update with no error outcome, matching `cv2`'s repeatable
`VideoCapture.release()` — it is idempotent, and afterwards `is_open` is
`false`.  The quantification is over *every* source state, so it covers in
particular states reached after a `read` raised. -/
theorem release_idempotent_closes :
    ∀ (s : VideoFileSource) (t : WebcamSource),
      s.release.release = s.release ∧ s.release.is_open = false ∧
      t.release.release = t.release ∧ t.release.is_open = false := by
  intro s t
  refine ⟨?_, ?_, ?_, ?_⟩
  · cases hs : s.cap with
    | none => simp [VideoFileSource.release, hs]
    | some c => simp [VideoFileSource.release, hs, CvCap.release]
  · cases hs : s.cap with
    | none => simp [VideoFileSource.release, VideoFileSource.is_open, hs]
    | some c => simp [VideoFileSource.release, VideoFileSource.is_open, hs,
        CvCap.release]
  · cases ht : t.cap with
    | none => simp [WebcamSource.release, ht]
    | some c => simp [WebcamSource.release, ht, CvCap.release]
  · cases ht : t.cap with
    | none => simp [WebcamSource.release, WebcamSource.is_open, ht]
    | some c => simp [WebcamSource.release, WebcamSource.is_open, ht,
        CvCap.release]

/-- **C8.** Constructing a video source on a missing or unopenable input
fails at construction time with the descriptive error from the source
(`FileNotFoundError` / `RuntimeError` messages), and succeeds — with an
open capture — exactly when the input is available; the constructor
consults the environment once, with no retry path. -/
theorem source_construction_fails_fast (env : FsEnv) (path : String)
    (idx : Nat) :
    (env.fileExists path = false →
      VideoFileSource.init env path =
        .error ("Video file not found: " ++ path)) ∧
    (env.fileExists path = true → env.openFileOk path = false →
      VideoFileSource.init env path =
        .error ("Failed to open video file: " ++ path)) ∧
    (env.fileExists path = true → env.openFileOk path = true →
      VideoFileSource.init env path =
        .ok { cap := some { opened := true }, filePath := path }) ∧
    (env.openCameraOk idx = false →
      WebcamSource.init env idx =
        .error ("Failed to open camera " ++ toString idx)) ∧
    (env.openCameraOk idx = true →
      WebcamSource.init env idx =
        .ok { cap := some { opened := true }, cameraIndex := idx }) := by
  refine ⟨?_, ?_, ?_, ?_, ?_⟩ <;>
    intro h1 <;> first
      | (intro h2; simp [VideoFileSource.init, h1, h2])
      | simp [VideoFileSource.init, WebcamSource.init, h1]

/-- Witness for C8: a concrete environment in which the file is missing,
so construction returns the descriptive error. -/
theorem source_construction_fails_fast_witness :
    VideoFileSource.init
        ⟨fun _ => false, fun _ => true, fun _ => true⟩ "missing.mp4" =
      .error "Video file not found: missing.mp4" :=
  (source_construction_fails_fast
    ⟨fun _ => false, fun _ => true, fun _ => true⟩ "missing.mp4" 0).1 rfl

/-- **C9.** For every tracker state, `update` with an empty detections
list returns the empty list and leaves the tracker — in particular the
trajectory store observed through `get_all_trajectories` — unchanged. -/
theorem tracker_update_empty_noop {σ : Type} :
    ∀ (tr : Tracker σ) (frameShape : Nat × Nat),
      tr.update [] frameShape = (tr, []) ∧
      (tr.update [] frameShape).1.get_all_trajectories =
        tr.get_all_trajectories := by
  intro tr frameShape
  exact ⟨rfl, rfl⟩

/-- **C10.** `WebcamSource.get_properties` substitutes 30 for a reported
fps of 0, never returns fps 0, and always reports the `-1` frame-count
sentinel. -/
theorem webcam_properties_fps_framecount (s : WebcamSource)
    (rawW rawH rawFps rawPos : Int) :
    (s.get_properties rawW rawH rawFps rawPos).fps ≠ 0 ∧
    (rawFps = 0 → (s.get_properties rawW rawH rawFps rawPos).fps = 30) ∧
    (rawFps ≠ 0 → (s.get_properties rawW rawH rawFps rawPos).fps = rawFps) ∧
    (s.get_properties rawW rawH rawFps rawPos).frameCount = -1 := by
  unfold WebcamSource.get_properties
  by_cases h : rawFps = 0
  · refine ⟨?_, fun _ => by simp [h], fun hne => absurd h hne, rfl⟩
    simp [h]
  · refine ⟨?_, fun h0 => absurd h0 h, fun _ => by simp [h], rfl⟩
    simp [h]

/-- Witness for C10: a device reporting fps 0 yields fps 30. -/
theorem webcam_properties_fps_framecount_witness :
    (WebcamSource.get_properties ⟨some ⟨true⟩, 0⟩ 640 480 0 0).fps = 30 :=
  (webcam_properties_fps_framecount ⟨some ⟨true⟩, 0⟩ 640 480 0 0).2.1 rfl

end Trajector
